import Mathlib

/-
Verification of the identity & session-management subsystem of the
aieduthon backend (Go + gin + gothic + golang-jwt/v5), as a shallow
embedding in Lean 4.

Sources embedded:
  - internal/handlers/handler.go        (GoogleCallBackFunction, Login, SignUp, main)
  - internal/handlers (CreateJWTToken)
  - internal/middleware/Jwt_middleware.go (JWTMiddleWare, mapFromClaims)
  - internal/Auth (InitStore, SetUpgoth, GothicStoreWrapper, GinHandler)
  - internal/db/get (CheckUserExists), internal/db/post (CreateUser),
    internal/db/update (UpdateLoginTime)
  - internal/routes (the /auth/status closure and the protected group)

Modelling conventions:
  - the Mongo users collection is a Lean list of records; FindOne on the
    email filter is a first-match lookup, InsertOne is an append;
  - time.Now() within one handler invocation is a single instant, passed
    in as an explicit Unix-seconds parameter (plus a formatted string for
    the string-typed timestamp fields);
  - the sha256-hex digest is an explicit function parameter of the
    handlers that use it (the handlers only pipe it through);
  - a signed JWT is represented structurally as (algorithm, signing key,
    claim map); signature verification succeeds exactly when the
    configured key equals the key the token was signed with and the
    algorithm matches, which is the semantics of HMAC signing;
  - a Go panic in a handler is an Except.error outcome.
-/

namespace AieduthonAuth

/-- User identity record, from the mongodb.Users struct as populated by
handler.go (ID, UserName, Email, GoogleID, AuthProvider, PasswdHash,
Organisation, LastLogin, Createdat). -/
structure Users where
  id : String
  userName : String
  email : String
  googleID : String
  authProvider : String
  passwdHash : String
  organisation : String
  lastLogin : String
  createdAt : String
deriving DecidableEq

/-- Go constant time.DateOnly, assigned verbatim to Createdat by the
handlers. -/
def dateOnly : String := "2006-01-02"

/-- get.CheckUserExists: FindOne on the email filter; mongo.ErrNoDocuments
is mapped to nil, i.e. none. The backing collection is the list. -/
def CheckUserExists (db : List Users) (email : String) : Option Users :=
  db.find? (fun u => u.email == email)

/-- post.CreateUser: InsertOne into the users collection. -/
def CreateUser (db : List Users) (u : Users) : List Users :=
  db ++ [u]

/-- update.UpdateLoginTime: UpdateOne with a $set on lastlogin; UpdateOne
touches at most the first matching document. -/
def UpdateLoginTime (db : List Users) (email : String) (nowStr : String) : List Users :=
  match db with
  | [] => []
  | u :: rest =>
    if u.email == email then { u with lastLogin := nowStr } :: rest
    else u :: UpdateLoginTime rest email nowStr

/-- Number of identity records holding a given email. -/
def countEmail (db : List Users) (email : String) : Nat :=
  db.countP (fun u => u.email == email)

/-- A JWT claim value: the handlers only store strings and Unix-second
integers. -/
inductive CVal where
  | s (v : String)
  | i (v : Int)
deriving DecidableEq

/-- A Go map[string]any of claims, as an association list with unique
keys (mapSet removes the key before inserting, as map assignment does). -/
def ClaimMap := List (String × CVal)
deriving DecidableEq

/-- Go map assignment m[k] = v. -/
def mapSet (m : ClaimMap) (k : String) (v : CVal) : ClaimMap :=
  (List.filter (fun p => p.1 != k) m) ++ [(k, v)]

/-- Go map lookup m[k]. -/
def mapGet (m : ClaimMap) (k : String) : Option CVal :=
  (List.find? (fun p => p.1 == k) m).map (fun p => p.2)

/-- JWT signing algorithms relevant to the middleware keyfunc, which
accepts exactly the HMAC family. -/
inductive Alg where
  | HS256
  | HS384
  | HS512
  | RS256
  | ES256
deriving DecidableEq

/-- Whether t.Method is a *jwt.SigningMethodHMAC. -/
def Alg.isHMAC : Alg → Bool
  | .HS256 => true
  | .HS384 => true
  | .HS512 => true
  | _ => false

/-- A signed token, structurally: the algorithm and key used at signing,
plus the claim set (the signature is determined by these). -/
structure Token where
  alg : Alg
  key : String
  claims : ClaimMap
deriving DecidableEq

/-- handlers.CreateJWTToken: copies the extra claims into a fresh map,
sets iat = now and exp = now + 24h (86400 s), and signs with HS256 under
the configured key. SignedString cannot fail for HS256 with these claim
values, so the error return of the Go function is elided. -/
def CreateJWTToken (extra : ClaimMap) (key : String) (nowUnix : Int) : Token :=
  let claims := extra.foldl (fun acc p => mapSet acc p.1 p.2) []
  let claims := mapSet claims "iat" (.i nowUnix)
  let claims := mapSet claims "exp" (.i (nowUnix + 86400))
  ⟨.HS256, key, claims⟩

/-- Claim lookup through an optional token. -/
def tokClaim (o : Option Token) (k : String) : Option CVal :=
  match o with
  | some t => mapGet t.claims k
  | none => none

/-- expiresAt minus issuedAt of an optional token, when both are present
as integers. -/
def tokLifetime (o : Option Token) : Option Int :=
  match tokClaim o "exp", tokClaim o "iat" with
  | some (.i e), some (.i a) => some (e - a)
  | _, _ => none

/-- Registered-claims expiry validation of golang-jwt v5: a token with an
integer exp claim is valid while now is strictly before exp; a token
without an exp claim passes (exp is not required by default). -/
def expOk (m : ClaimMap) (nowUnix : Int) : Bool :=
  match mapGet m "exp" with
  | some (.i e) => decide (nowUnix < e)
  | _ => true

/-- jwt.Parse with the keyfunc of Jwt_middleware.go: a wire string either
decodes to a structural token or is malformed (decode is the ambient JWT
wire encoding); the keyfunc rejects any non-HMAC method; the signature
verifies exactly when the token was signed under the configured key; then
the v5 validator checks expiry. Every rejection is collapsed to none, as
the middleware only branches on err/parse.Valid. -/
def jwtParse (decode : String → Option Token) (key : String) (nowUnix : Int)
    (s : String) : Option ClaimMap :=
  match decode s with
  | none => none
  | some t =>
    if t.alg.isHMAC = false then none
    else if t.key != key then none
    else if expOk t.claims nowUnix = false then none
    else some t.claims

/-- middleware.mapFromClaims: copies the claim map entry by entry into a
fresh map. -/
def mapFromClaims (c : ClaimMap) : ClaimMap :=
  c.foldl (fun acc p => mapSet acc p.1 p.2) []

/-- An incoming request as the middleware sees it: GetHeader returns the
empty string when the Authorization header is absent, and ctx.Cookie
returns an error (none) when the jwt cookie is absent. -/
structure MWRequest where
  authHeader : String
  jwtCookie : Option String
deriving DecidableEq

/-- Character-list core of strings.HasPrefix: does the first list start
with the second. -/
def listStartsWith : List Char → List Char → Bool
  | _, [] => true
  | [], _ :: _ => false
  | c :: cs, p :: ps => c == p && listStartsWith cs ps

/-- strings.HasPrefix over the characters of the strings (all inputs
here are ASCII, so bytes and characters coincide). -/
def strStartsWith (s p : String) : Bool :=
  listStartsWith s.data p.data

/-- strings.TrimPrefix for a prefix of n characters. -/
def strDropChars (s : String) (n : Nat) : String :=
  ⟨s.data.drop n⟩

/-- Token extraction of JWTMiddleWare: TokenString starts empty; when the
Authorization header carries the Bearer scheme its remainder is taken and
the cookie is never consulted; otherwise the jwt cookie is used when
present. -/
def extractToken (r : MWRequest) : String :=
  if strStartsWith r.authHeader "Bearer " then strDropChars r.authHeader 7
  else
    match r.jwtCookie with
    | some c => c
    | none => ""

/-- What one run of the middleware did to the gin context: the responses
it wrote, the claims it attached via ctx.Set, whether it called
ctx.Next(), and whether it called any Abort variant (it never does:
every failure path is ctx.JSON followed by a plain return). -/
structure MWOut where
  responses : List (Nat × String)
  claimsSet : Option ClaimMap
  calledNext : Bool
  aborted : Bool
deriving DecidableEq

/-- middleware.JWTMiddleWare, Jwt_middleware.go lines 13-55: extract a
token string, 401 when it is empty, parse it with the HMAC-only keyfunc,
401 when parsing or validation fails, otherwise attach the claim map and
call ctx.Next(). The MapClaims type assertion always succeeds with the
default parser, so its failure branch is unreachable. -/
def JWTMiddleWare (decode : String → Option Token) (key : String) (nowUnix : Int)
    (r : MWRequest) : MWOut :=
  let tokenString := extractToken r
  if tokenString = "" then ⟨[(401, "Unauthorized access")], none, false, false⟩
  else
    match jwtParse decode key nowUnix tokenString with
    | none => ⟨[(401, "Unauthorized access")], none, false, false⟩
    | some claims => ⟨[], some (mapFromClaims claims), true, false⟩

/-- The /api/protected handler from routes: c.MustGet("claims") panics
when the middleware did not set the key; otherwise it responds 200. -/
def protectedHandler (keys : Option ClaimMap) : Except Unit (Nat × String) :=
  match keys with
  | none => .error ()
  | some _ => .ok (200, "hello protected")

/-- Outcome of routing one request: either a list of written responses,
or a panic escaping the whole gin chain. -/
inductive RouteOutcome where
  | responded (resps : List (Nat × String))
  | panicked
deriving DecidableEq

/-- One request through the protected group, i.e. the gin chain
[JWTMiddleWare, protectedHandler]. gin's Context.Next loop keeps running
handlers while the index is below the chain length; only an Abort call
moves the index past the end, so a middleware that merely returns leaves
the loop running and the downstream handler executes. The engine is built
with gin.New(), which installs no recovery middleware, and the routes do
not wrap handlers in auth.GinHandler, so a downstream panic escapes the
chain. -/
def runProtected (decode : String → Option Token) (key : String) (nowUnix : Int)
    (r : MWRequest) : RouteOutcome :=
  let m := JWTMiddleWare decode key nowUnix r
  if m.aborted then .responded m.responses
  else
    match protectedHandler m.claimsSet with
    | .error _ => .panicked
    | .ok resp => .responded (m.responses ++ [resp])

/-- auth.GinHandler (gothic_helper.go lines 22-39): wraps an http handler
as a gin handler; a nil handler yields a 500 JSON error, and a panic in
the wrapped handler is recovered and converted to AbortWithStatus(500)
with an empty body. -/
def GinHandler (fn : Option (MWRequest → Except Unit (Nat × String)))
    (r : MWRequest) : Nat × String :=
  match fn with
  | none => (500, "internal server error")
  | some f =>
    match f r with
    | .error _ => (500, "")
    | .ok resp => resp

/-- A handler whose body panics, for exercising the recovery paths. -/
def panickingHandler : MWRequest → Except Unit (Nat × String) :=
  fun _ => .error ()

/-- gorilla/sessions cookie store as configured by auth.InitStore. -/
structure CookieStore where
  key : String
  path : String
  maxAge : Int
  httpOnly : Bool
  secure : Bool
deriving DecidableEq

/-- The store InitStore builds: path /, 7-day max age, httpOnly, not
secure. -/
def newCookieStore (key : String) : CookieStore :=
  ⟨key, "/", 86400 * 7, true, false⟩

/-- auth.InitStore acting on the package-level Store variable: with an
empty key it only logs a warning and returns, leaving Store untouched
(nil at startup); otherwise it installs a fresh cookie store. -/
def InitStore (key : String) (store : Option CookieStore) : Option CookieStore :=
  if key = "" then store else some (newCookieStore key)

/-- The package-level mutable state of the Auth package: auth.Store,
gothic.Store (captured from auth.Store at provider registration), and
whether goth.UseProviders has run. -/
structure AuthState where
  store : Option CookieStore
  gothicStore : Option CookieStore
  providerRegistered : Bool
deriving DecidableEq

/-- State at process start: both store variables nil, no provider. -/
def initialAuthState : AuthState :=
  ⟨none, none, false⟩

/-- auth.GothicStoreWrapper: when auth.Store is nil it logs the error
"InitStore() must be called BEFORE SetUpgoth()" and returns normally;
otherwise it copies auth.Store into gothic.Store. -/
def GothicStoreWrapper (s : AuthState) : AuthState :=
  match s.store with
  | none => s
  | some st => ⟨s.store, some st, s.providerRegistered⟩

/-- auth.SetUpgoth: registers the google provider with goth, then wires
gothic.Store from auth.Store via GothicStoreWrapper. -/
def SetUpgoth (s : AuthState) : AuthState :=
  GothicStoreWrapper ⟨s.store, s.gothicStore, true⟩

/-- auth.InitStore lifted to the full auth package state. -/
def InitStoreState (key : String) (s : AuthState) : AuthState :=
  ⟨InitStore key s.store, s.gothicStore, s.providerRegistered⟩

/-- The startup sequence of main (handler.go related main, lines 235-244):
missing Google credentials hit log.Fatalln (modelled as none, the process
exits before serving); otherwise auth.SetUpgoth runs first and
auth.InitStore runs second, and startup continues to serve traffic. -/
def mainStartup (clientID secret callback sessionKey : String) : Option AuthState :=
  if clientID == "" || callback == "" || secret == "" then none
  else some (InitStoreState sessionKey (SetUpgoth initialAuthState))

/-- The identity assertion returned by gothic.CompleteUserAuth. -/
structure GothUser where
  name : String
  email : String
  userID : String
deriving DecidableEq

/-- A cookie as written by c.SetCookie(name, value, maxAge, path, domain,
secure, httpOnly); the value is the signed token string, carried
separately as the token field of the handler outcomes. -/
structure Cookie where
  name : String
  maxAge : Int
  path : String
  domain : String
  secure : Bool
  httpOnly : Bool
deriving DecidableEq

/-- Everything one run of GoogleCallBackFunction did: response status and
body, the users collection afterwards, the issued token, the session
email marker, the cookie written, the redirect target, and whether the
handler panicked. -/
structure CallbackOut where
  status : Nat
  body : String
  db : List Users
  token : Option Token
  sessionEmail : Option String
  cookie : Option Cookie
  redirect : Option String
  panicked : Bool
deriving DecidableEq

/-- handler.go lines 39-61: look the OAuth email up and insert a fresh
google-provider record when absent. -/
def resolveOrCreate (db : List Users) (user : GothUser) (nowStr : String) : List Users :=
  match CheckUserExists db user.email with
  | none =>
    CreateUser db ⟨"", user.name, user.email, user.userID, "google", "", "", nowStr, dateOnly⟩
  | some _ => db

/-- handlers.GoogleCallBackFunction, handler.go lines 25-102, in source
order: CompleteUserAuth failure responds 500; an empty email responds 400
before any state is touched; otherwise the user is resolved or created,
the token is issued, the session email marker is saved via
auth.Store.Get — which dereferences a nil store and panics when InitStore
never ran —, a missing FRONTEND_URL responds 500, and the success path
writes the jwt cookie with maxAge = int(now+24h as a Unix timestamp),
path /, domain localhost, not secure, httpOnly, then redirects 303 to
FRONTEND_URL + /home. -/
def GoogleCallBackFunction (authRes : Except Unit GothUser) (db : List Users)
    (store : Option CookieStore) (frontendURL : String) (key : String)
    (nowUnix : Int) (nowStr : String) : CallbackOut :=
  match authRes with
  | .error _ => ⟨500, "CompleteUserAuth error", db, none, none, none, none, false⟩
  | .ok user =>
    if user.email = "" then
      ⟨400, "Please provide a valid email!!", db, none, none, none, none, false⟩
    else
      let db2 := resolveOrCreate db user nowStr
      let tok := CreateJWTToken
        (mapSet (mapSet (mapSet [] "name" (.s user.name)) "ID" (.s user.userID))
          "email" (.s user.email)) key nowUnix
      match store with
      | none => ⟨0, "", db2, some tok, none, none, none, true⟩
      | some _ =>
        if frontendURL = "" then
          ⟨500, "Internal Server error", db2, some tok, some user.email, none, none, false⟩
        else
          ⟨303, "", db2, some tok, some user.email,
            some ⟨"jwt", nowUnix + 86400, "/", "localhost", false, true⟩,
            some (frontendURL ++ "/home"), false⟩

/-- POST /login request body (modals/login.Users as consumed by the
handler: UserEmail and Password). -/
structure LoginReq where
  userEmail : String
  password : String
deriving DecidableEq

/-- Everything one run of Login did. -/
structure LoginOut where
  status : Nat
  message : String
  token : Option Token
  cookie : Option Cookie
  db : List Users
deriving DecidableEq

/-- handlers.Login, handler.go lines 104-164: a BindJSON failure responds
500; an unknown email responds 400 "User not found"; a hash mismatch
responds 400 "Password is incorrect"; on a match the token is issued with
claims Name, ID, email, the login time is updated, the jwt cookie is
written with maxAge = int(now+24h as a Unix timestamp), and the handler
responds 202. -/
def Login (hash : String → String) (db : List Users) (body : Except Unit LoginReq)
    (key : String) (nowUnix : Int) (nowStr : String) : LoginOut :=
  match body with
  | .error _ => ⟨500, "Internal server error", none, none, db⟩
  | .ok l =>
    match CheckUserExists db l.userEmail with
    | none => ⟨400, "User not found", none, none, db⟩
    | some u =>
      if hash l.password != u.passwdHash then
        ⟨400, "Password is incorrect", none, none, db⟩
      else
        let tok := CreateJWTToken
          (mapSet (mapSet (mapSet [] "Name" (.s u.userName)) "ID" (.s u.id))
            "email" (.s u.email)) key nowUnix
        ⟨202, "Successfully LoggedIn", some tok,
          some ⟨"jwt", nowUnix + 86400, "/", "localhost", false, true⟩,
          UpdateLoginTime db l.userEmail nowStr⟩

/-- POST /signup request body (modals/login.SignUp as consumed by the
handler: Name, Email, Password). -/
structure SignUpReq where
  name : String
  email : String
  password : String
deriving DecidableEq

/-- Everything one run of SignUp did. -/
structure SignUpOut where
  status : Nat
  message : String
  db : List Users
  redirect : Option String
deriving DecidableEq

/-- handlers.SignUp, handler.go lines 166-210: a BindJSON failure
responds 500; otherwise the email is looked up, the password hash is
computed, a fresh email gets a new record with AuthProvider "Local" and
PasswdHash = hash(password) while an existing email is only logged; a
missing LOGIN_URL responds 500; otherwise the handler redirects 303 to
the login surface. No format validation of email or password is
performed anywhere in the handler. -/
def SignUp (hash : String → String) (db : List Users) (body : Except Unit SignUpReq)
    (loginURL : String) (nowStr : String) : SignUpOut :=
  match body with
  | .error _ => ⟨500, "Internal server error", db, none⟩
  | .ok s =>
    let db2 :=
      match CheckUserExists db s.email with
      | none =>
        CreateUser db ⟨"", s.name, s.email, "", "Local", hash s.password, "", nowStr, dateOnly⟩
      | some _ => db
    if loginURL = "" then ⟨500, "Internal server error", db2, none⟩
    else ⟨303, "", db2, some loginURL⟩

/-- The GET /auth/status closure from routes: auth.Store.Get on a nil
store panics (nil-pointer dereference inside CookieStore.New); otherwise
the handler answers 200 with the session email marker when present and
non-empty. -/
def authStatusRoute (store : Option CookieStore) (sessionEmail : Option String) :
    Except Unit (Nat × Option String) :=
  match store with
  | none => .error ()
  | some _ =>
    match sessionEmail with
    | some e => if e != "" then .ok (200, some e) else .ok (200, none)
    | none => .ok (200, none)

/-- A decode map for concrete middleware runs: four wire strings decode
to a valid token, an expired one, one signed under another key, and one
using a non-HMAC algorithm; everything else is malformed. -/
def decode0 : String → Option Token := fun s =>
  if s = "good" then some ⟨.HS256, "k", [("email", .s "a@b.c"), ("exp", .i 100)]⟩
  else if s = "expired" then some ⟨.HS256, "k", [("exp", .i 5)]⟩
  else if s = "wrongkey" then some ⟨.HS256, "other", [("exp", .i 100)]⟩
  else if s = "badalg" then some ⟨.RS256, "k", [("exp", .i 100)]⟩
  else none

/-- Test digest for concrete runs of the password handlers. -/
def hash0 : String → String := fun s => String.append "H:" s

/-- A stored local-provider account whose password digest is hash0
applied to the string right. -/
def alice : Users :=
  ⟨"u1", "Alice", "alice@x.c", "", "Local", "H:right", "", "t0", "2006-01-02"⟩

/-- C1. The claim says auth.InitStore completes before auth.SetUpgoth and
that a nil store at provider-registration time is a hard startup error.
The code does the opposite: main (handler.go lines 243-244) calls
SetUpgoth first, so GothicStoreWrapper sees a nil auth.Store, logs its
own message that InitStore must be called BEFORE SetUpgoth, and returns;
startup then initializes the store and continues to serve, with
gothic.Store never set. This theorem evaluates the startup sequence with
all credentials and a session key present: the provider is registered,
the store ends up initialized, yet gothic.Store is none and the process
did not exit (the result is some, not the fatal none). -/
theorem C1_provider_registered_before_store_init :
    mainStartup "cid" "sec" "cb" "sessionkey" =
      some ⟨some (newCookieStore "sessionkey"), none, true⟩ ∧
    (mainStartup "cid" "sec" "cb" "sessionkey").isSome = true ∧
    mainStartup "" "sec" "cb" "sessionkey" = none := by
  decide

/-- C2. The claim says a wrong-password login and an unknown-email login
return the same status and the same error message. On the code the
statuses agree (both 400) but the bodies differ: "Password is incorrect"
for the stored account alice with a wrong password, "User not found" for
an email matching no account, so the caller can distinguish the two
cases. -/
theorem C2_login_error_messages_differ :
    (Login hash0 [alice] (.ok ⟨"alice@x.c", "wrong"⟩) "k" 0 "t1").status = 400 ∧
    (Login hash0 [alice] (.ok ⟨"ghost@x.c", "wrong"⟩) "k" 0 "t1").status = 400 ∧
    (Login hash0 [alice] (.ok ⟨"alice@x.c", "wrong"⟩) "k" 0 "t1").message =
      "Password is incorrect" ∧
    (Login hash0 [alice] (.ok ⟨"ghost@x.c", "wrong"⟩) "k" 0 "t1").message =
      "User not found" ∧
    ¬ (Login hash0 [alice] (.ok ⟨"alice@x.c", "wrong"⟩) "k" 0 "t1").message =
      (Login hash0 [alice] (.ok ⟨"ghost@x.c", "wrong"⟩) "k" 0 "t1").message := by
  decide

/-- C3. Extraction order and the 401-with-no-claims behaviour hold: with
no header and no cookie, with an expired token, with a token signed under
another key, with a non-HMAC token, and with a bad header token even when
a valid cookie token is present (header wins), the middleware writes 401
and attaches no claims, while a valid cookie token alone succeeds. But
the middleware never calls Abort — every failure path is ctx.JSON plus a
plain return — so gin's handler loop continues and the downstream handler
IS invoked, contrary to the claim: on the protected route the downstream
MustGet then panics. -/
theorem C3_failure_paths_do_not_abort :
    JWTMiddleWare decode0 "k" 50 ⟨"", none⟩ =
      ⟨[(401, "Unauthorized access")], none, false, false⟩ ∧
    JWTMiddleWare decode0 "k" 50 ⟨"Bearer expired", none⟩ =
      ⟨[(401, "Unauthorized access")], none, false, false⟩ ∧
    JWTMiddleWare decode0 "k" 50 ⟨"Bearer wrongkey", none⟩ =
      ⟨[(401, "Unauthorized access")], none, false, false⟩ ∧
    JWTMiddleWare decode0 "k" 50 ⟨"Bearer badalg", none⟩ =
      ⟨[(401, "Unauthorized access")], none, false, false⟩ ∧
    JWTMiddleWare decode0 "k" 50 ⟨"Bearer junk", none⟩ =
      ⟨[(401, "Unauthorized access")], none, false, false⟩ ∧
    JWTMiddleWare decode0 "k" 50 ⟨"Bearer expired", some "good"⟩ =
      ⟨[(401, "Unauthorized access")], none, false, false⟩ ∧
    (JWTMiddleWare decode0 "k" 50 ⟨"", some "good"⟩).claimsSet.isSome = true ∧
    (JWTMiddleWare decode0 "k" 50 ⟨"", some "good"⟩).responses = [] ∧
    runProtected decode0 "k" 50 ⟨"", none⟩ = .panicked := by
  decide

/-- C9. The claim says a panic downstream of the auth boundary is
recovered and converted to a 500. On the code the engine is built with
gin.New() (no recovery middleware) and the routes never wrap handlers in
auth.GinHandler, so the downstream panic on the protected route escapes
the whole gin chain instead of becoming a 500 response — while the
repo's own (unused) GinHandler wrapper would have recovered it to a 500,
and converts a nil handler to a 500 as well. -/
theorem C9_downstream_panic_escapes_unrecovered :
    runProtected decode0 "k" 50 ⟨"Bearer junk", none⟩ = .panicked ∧
    GinHandler (some panickingHandler) ⟨"", none⟩ = (500, "") ∧
    GinHandler none ⟨"", none⟩ = (500, "internal server error") := by
  decide

/-- C8. The claim says the cookie set on a successful OAuth callback has
maxAge = 24 hours. The code computes JwtExp = Unix(now + 24h) and passes
that timestamp as the maxAge argument of SetCookie, so at now =
1700000000 the cookie lives 1700086400 seconds, about 54 years, not
86400; httpOnly, path / and the 303 redirect to FRONTEND_URL + /home do
hold. -/
theorem C8_cookie_max_age_is_a_timestamp :
    (GoogleCallBackFunction (.ok ⟨"Bob", "bob@x.c", "g1"⟩) []
        (some (newCookieStore "s")) "http://app" "k" 1700000000 "t1").cookie =
      some ⟨"jwt", 1700086400, "/", "localhost", false, true⟩ ∧
    (GoogleCallBackFunction (.ok ⟨"Bob", "bob@x.c", "g1"⟩) []
        (some (newCookieStore "s")) "http://app" "k" 1700000000 "t1").redirect =
      some "http://app/home" ∧
    (GoogleCallBackFunction (.ok ⟨"Bob", "bob@x.c", "g1"⟩) []
        (some (newCookieStore "s")) "http://app" "k" 1700000000 "t1").status = 303 ∧
    ¬ (GoogleCallBackFunction (.ok ⟨"Bob", "bob@x.c", "g1"⟩) []
        (some (newCookieStore "s")) "http://app" "k" 1700000000 "t1").cookie =
      some ⟨"jwt", 86400, "/", "localhost", false, true⟩ := by
  decide

/-- Helper: a find? over an appended list skips a block with no match. -/
theorem find?_append_of_none {α : Type} {p : α → Bool} {l1 l2 : List α}
    (h : l1.find? p = none) : (l1 ++ l2).find? p = l2.find? p := by
  rw [List.find?_append, h, Option.none_or]

/-- Helper: a block with no find? match contributes no countP hits. -/
theorem countP_zero_of_find?_none {α : Type} {p : α → Bool} {l : List α}
    (h : l.find? p = none) : l.countP p = 0 :=
  List.countP_eq_zero.mpr (List.find?_eq_none.mp h)

/-- C4. A successful local login issues a token whose claims carry the
account's email (key email) and id (key ID), with iat = now and exp =
now + 24h, so the lifetime is exactly 86400 seconds; the handler answers
202. Hypotheses: the email resolves to the stored account u and the
digest of the supplied password equals the stored hash. -/
theorem C4_login_token_claims (hash : String → String) (db : List Users)
    (key : String) (nowUnix : Int) (nowStr : String) (req : LoginReq) (u : Users)
    (hfind : CheckUserExists db req.userEmail = some u)
    (hpw : hash req.password = u.passwdHash) :
    (Login hash db (.ok req) key nowUnix nowStr).status = 202 ∧
    tokClaim (Login hash db (.ok req) key nowUnix nowStr).token "email" =
      some (.s u.email) ∧
    tokClaim (Login hash db (.ok req) key nowUnix nowStr).token "ID" =
      some (.s u.id) ∧
    tokClaim (Login hash db (.ok req) key nowUnix nowStr).token "iat" =
      some (.i nowUnix) ∧
    tokClaim (Login hash db (.ok req) key nowUnix nowStr).token "exp" =
      some (.i (nowUnix + 86400)) ∧
    tokLifetime (Login hash db (.ok req) key nowUnix nowStr).token = some 86400 := by
  have h : Login hash db (.ok req) key nowUnix nowStr =
      ⟨202, "Successfully LoggedIn",
        some (CreateJWTToken
          (mapSet (mapSet (mapSet [] "Name" (.s u.userName)) "ID" (.s u.id))
            "email" (.s u.email)) key nowUnix),
        some ⟨"jwt", nowUnix + 86400, "/", "localhost", false, true⟩,
        UpdateLoginTime db req.userEmail nowStr⟩ := by
    simp [Login, hfind, hpw]
  rw [h]
  refine ⟨rfl, rfl, rfl, rfl, rfl, ?_⟩
  show some (nowUnix + 86400 - nowUnix) = some 86400
  congr 1
  omega

/-- Concrete login request for the C4 witness. -/
def req4 : LoginReq := ⟨"alice@x.c", "right"⟩

/-- Witness for C4 at a one-account store. -/
theorem C4_login_token_claims_witness :
    CheckUserExists [alice] req4.userEmail = some alice ∧
    hash0 req4.password = alice.passwdHash ∧
    ((Login hash0 [alice] (.ok req4) "k" 100 "t1").status = 202 ∧
     tokClaim (Login hash0 [alice] (.ok req4) "k" 100 "t1").token "email" =
       some (.s alice.email) ∧
     tokClaim (Login hash0 [alice] (.ok req4) "k" 100 "t1").token "ID" =
       some (.s alice.id) ∧
     tokClaim (Login hash0 [alice] (.ok req4) "k" 100 "t1").token "iat" =
       some (.i 100) ∧
     tokClaim (Login hash0 [alice] (.ok req4) "k" 100 "t1").token "exp" =
       some (.i (100 + 86400)) ∧
     tokLifetime (Login hash0 [alice] (.ok req4) "k" 100 "t1").token = some 86400) :=
  ⟨by decide, by decide,
    C4_login_token_claims hash0 [alice] "k" 100 "t1" req4 alice (by decide) (by decide)⟩

/-- C5. A signup with a fresh email leaves exactly one record under that
email, holding authProvider Local (the code's representation of the local
provider) and passwdHash = hash(password); a signup whose email already
has an identity leaves the collection unchanged and still completes with
the 303 success redirect; and the handler's entire outcome depends on the
password only through its digest, so the plaintext is never stored. -/
theorem C5_signup_idempotent_hashed (hash : String → String) (db db2 : List Users)
    (r : SignUpReq) (url nowStr : String) (u2 : Users) (p1 p2 : String)
    (hurl : ¬ url = "")
    (hfresh : CheckUserExists db r.email = none)
    (hdup : CheckUserExists db2 r.email = some u2)
    (hp : hash p1 = hash p2) :
    countEmail (SignUp hash db (.ok r) url nowStr).db r.email = 1 ∧
    CheckUserExists (SignUp hash db (.ok r) url nowStr).db r.email =
      some ⟨"", r.name, r.email, "", "Local", hash r.password, "", nowStr, dateOnly⟩ ∧
    (SignUp hash db (.ok r) url nowStr).status = 303 ∧
    (SignUp hash db2 (.ok r) url nowStr).db = db2 ∧
    (SignUp hash db2 (.ok r) url nowStr).status = 303 ∧
    SignUp hash db (.ok ⟨r.name, r.email, p1⟩) url nowStr =
      SignUp hash db (.ok ⟨r.name, r.email, p2⟩) url nowStr := by
  have hmain : SignUp hash db (.ok r) url nowStr =
      ⟨303, "",
        CreateUser db ⟨"", r.name, r.email, "", "Local", hash r.password, "", nowStr, dateOnly⟩,
        some url⟩ := by
    simp [SignUp, hfresh, hurl]
  have hdupmain : SignUp hash db2 (.ok r) url nowStr = ⟨303, "", db2, some url⟩ := by
    simp [SignUp, hdup, hurl]
  refine ⟨?_, ?_, ?_, ?_, ?_, ?_⟩
  · rw [hmain]
    show countEmail (CreateUser db _) r.email = 1
    unfold countEmail CreateUser
    rw [List.countP_append, countP_zero_of_find?_none hfresh]
    simp
  · rw [hmain]
    show CheckUserExists (CreateUser db _) r.email = _
    unfold CheckUserExists CreateUser
    rw [find?_append_of_none hfresh]
    simp [List.find?]
  · rw [hmain]
  · rw [hdupmain]
  · rw [hdupmain]
  · simp [SignUp, hfresh, hurl, hp]

/-- Concrete signup request for the C5 witness. -/
def reqBob : SignUpReq := ⟨"Bob", "bob@x.c", "pw"⟩

/-- A stored record occupying the email of reqBob, for the idempotence
half of the C5 witness. -/
def bobRec : Users :=
  ⟨"u2", "Bob", "bob@x.c", "", "Local", "H:pw", "", "t0", "2006-01-02"⟩

/-- Witness for C5 on the empty store and on a store already holding the
email. -/
theorem C5_signup_idempotent_hashed_witness :
    ¬ "L" = "" ∧
    CheckUserExists [] reqBob.email = none ∧
    CheckUserExists [bobRec] reqBob.email = some bobRec ∧
    hash0 "a" = hash0 "a" ∧
    (countEmail (SignUp hash0 [] (.ok reqBob) "L" "t1").db reqBob.email = 1 ∧
     CheckUserExists (SignUp hash0 [] (.ok reqBob) "L" "t1").db reqBob.email =
       some ⟨"", reqBob.name, reqBob.email, "", "Local", hash0 reqBob.password, "", "t1", dateOnly⟩ ∧
     (SignUp hash0 [] (.ok reqBob) "L" "t1").status = 303 ∧
     (SignUp hash0 [bobRec] (.ok reqBob) "L" "t1").db = [bobRec] ∧
     (SignUp hash0 [bobRec] (.ok reqBob) "L" "t1").status = 303 ∧
     SignUp hash0 [] (.ok ⟨reqBob.name, reqBob.email, "a"⟩) "L" "t1" =
       SignUp hash0 [] (.ok ⟨reqBob.name, reqBob.email, "a"⟩) "L" "t1") :=
  ⟨by decide, by decide, by decide, rfl,
    C5_signup_idempotent_hashed hash0 [] [bobRec] reqBob "L" "t1" bobRec "a" "a"
      (by decide) (by decide) (by decide) rfl⟩

/-- C6. An OAuth callback whose provider assertion has an empty email is
rejected with 400 before any effect: the users collection is unchanged,
no token is issued, no session email marker is saved, no cookie is
written, no redirect happens, and the handler does not panic. -/
theorem C6_callback_missing_email (user : GothUser) (db : List Users)
    (store : Option CookieStore) (frontendURL key : String) (nowUnix : Int)
    (nowStr : String) (hemail : user.email = "") :
    GoogleCallBackFunction (.ok user) db store frontendURL key nowUnix nowStr =
      ⟨400, "Please provide a valid email!!", db, none, none, none, none, false⟩ := by
  simp [GoogleCallBackFunction, hemail]

/-- Provider assertion with no email, for the C6 witness. -/
def noEmailUser : GothUser := ⟨"Bob", "", "g1"⟩

/-- Witness for C6. -/
theorem C6_callback_missing_email_witness :
    noEmailUser.email = "" ∧
    GoogleCallBackFunction (.ok noEmailUser) [alice] (some (newCookieStore "s"))
        "http://app" "k" 0 "t1" =
      ⟨400, "Please provide a valid email!!", [alice], none, none, none, none, false⟩ :=
  ⟨by decide,
    C6_callback_missing_email noEmailUser [alice] (some (newCookieStore "s"))
      "http://app" "k" 0 "t1" (by decide)⟩

/-- C7 counterexample. The claim says a malformed login or signup body
gets a 400 ValidationError; on the code the BindJSON failure branch of
both handlers responds 500. -/
theorem C7_malformed_body_counterexample :
    (Login hash0 [alice] (.error ()) "k" 0 "t1").status = 500 ∧
    (SignUp hash0 [alice] (.error ()) "L" "t1").status = 500 ∧
    ¬ (Login hash0 [alice] (.error ()) "k" 0 "t1").status = 400 ∧
    ¬ (SignUp hash0 [alice] (.error ()) "L" "t1").status = 400 := by
  decide

/-- C7 amended. A malformed login or signup body is answered with a 500
generic Internal server error (not 400), and the handlers perform no
email or password format validation at all: every well-formed signup body
passes straight through and ends in the 303 success redirect whenever
LOGIN_URL is set, whatever its email and password look like. -/
theorem C7_malformed_body_amended (hash : String → String) (db : List Users)
    (key url nowStr : String) (nowUnix : Int) (r : SignUpReq) (hurl : ¬ url = "") :
    (Login hash db (.error ()) key nowUnix nowStr).status = 500 ∧
    (Login hash db (.error ()) key nowUnix nowStr).message = "Internal server error" ∧
    (SignUp hash db (.error ()) url nowStr).status = 500 ∧
    (SignUp hash db (.ok r) url nowStr).status = 303 := by
  refine ⟨rfl, rfl, rfl, ?_⟩
  cases h : CheckUserExists db r.email <;> simp [SignUp, h, hurl]

/-- A signup body with empty email and password, for the C7 witness:
even it is not rejected. -/
def reqC7 : SignUpReq := ⟨"", "", ""⟩

/-- Witness for the amended C7. -/
theorem C7_malformed_body_amended_witness :
    ¬ "L" = "" ∧
    ((Login hash0 [] (.error ()) "k" 0 "t1").status = 500 ∧
     (Login hash0 [] (.error ()) "k" 0 "t1").message = "Internal server error" ∧
     (SignUp hash0 [] (.error ()) "L" "t1").status = 500 ∧
     (SignUp hash0 [] (.ok reqC7) "L" "t1").status = 303) :=
  ⟨by decide, C7_malformed_body_amended hash0 [] "k" "L" "t1" 0 reqC7 (by decide)⟩

/-- C10. InitStore with an empty key leaves the package-level store nil,
and every request that then touches the session store hits a nil-pointer
dereference: the /auth/status closure panics for every session value, and
the OAuth callback panics at its session-marking step for every assertion
that carries an email (having already updated the users collection). -/
theorem C10_nil_store_panics (sess : Option String) (user : GothUser) (db : List Users)
    (frontendURL key : String) (nowUnix : Int) (nowStr : String)
    (hemail : ¬ user.email = "") :
    InitStore "" none = none ∧
    authStatusRoute none sess = .error () ∧
    (GoogleCallBackFunction (.ok user) db none frontendURL key nowUnix nowStr).panicked =
      true := by
  refine ⟨rfl, rfl, ?_⟩
  simp [GoogleCallBackFunction, hemail]

/-- Provider assertion with an email, for the C10 witness. -/
def bob : GothUser := ⟨"Bob", "bob@x.c", "g1"⟩

/-- Witness for C10. -/
theorem C10_nil_store_panics_witness :
    ¬ bob.email = "" ∧
    (InitStore "" none = none ∧
     authStatusRoute none (some "bob@x.c") = .error () ∧
     (GoogleCallBackFunction (.ok bob) [] none "http://app" "k" 0 "t1").panicked = true) :=
  ⟨by decide, C10_nil_store_panics (some "bob@x.c") bob [] "http://app" "k" 0 "t1" (by decide)⟩

end AieduthonAuth
